import Mathlib

/-!
Shallow embedding of the `tty_relay` relay controller (`src/port.rs`) and the
CLI argument handling it is driven by (`src/main.rs`).

The controller owns a byte stream; every high-level operation is a fixed
sequence of 4-byte command frames, each followed by a 50 ms pacing sleep.
We model the stream as an event trace (`Event.wrote` / `Event.slept`) kept in
the port state, and the possibility of an I/O error on each `write_all` call
by a failure oracle `failAt : Nat → Option IoError` consulted at the index of
the next frame write.  An operation returns the final state paired with an
optional error, mirroring Rust's `Result` threading via `?` while keeping the
bytes already on the wire observable.

The target platform is little-endian, so `u16::to_ne_bytes` yields
`[low, high]`; the repository's own tests (`test_timer`, `test_timed_on`)
pin this behaviour.
-/

namespace TtyRelay

/-- A byte, kept as a `Nat` below 256 wherever the source guarantees it. -/
abbrev Byte := Nat

/-- `u16::to_ne_bytes` on the little-endian target: index 0 is the low byte,
index 1 the high byte.  The `% 256` reductions make the function total on
`Nat` and agree with the `u16` value `t % 2 ^ 16`. -/
def toNeBytes (t : Nat) : List Byte :=
  [t % 256, t / 256 % 256]

/-- The `control_mode` frame `[0xF0, 0xA0, 0x0C, 0x54]`. -/
def controlModeFrame : List Byte := [0xF0, 0xA0, 0x0C, 0x54]

/-- The `jog_mode` frame `[0xF0, 0xA0, 0x0C, 0x55]`. -/
def jogModeFrame : List Byte := [0xF0, 0xA0, 0x0C, 0x55]

/-- The frame built by `send_timer`: `[0xF0, timeout[1], timeout[0], 0x57]`
where `timeout = timeout.to_ne_bytes()`. -/
def timerFrame (timeout : Nat) : List Byte :=
  [0xF0, (toNeBytes timeout).getD 1 0, (toNeBytes timeout).getD 0 0, 0x57]

/-- The `Action` enum of `port.rs`. -/
inductive Action
  | connect
  | disconnect
deriving DecidableEq

/-- The `enable` byte chosen in `send_action`.  `ncConnected = false` is the
`no-connected` build feature (enable-on-connect polarity: `Connect → 0x01`,
`Disconnect → 0x00`); `ncConnected = true` is the `nc-connected` feature with
the inverted polarity. -/
def enableByte (ncConnected : Bool) (action : Action) : Byte :=
  match ncConnected, action with
  | false, .connect => 0x01
  | false, .disconnect => 0x00
  | true, .connect => 0x00
  | true, .disconnect => 0x01

/-- The frame built by `send_action`: `[0xF0, 0xA0, enable, 0x53]`. -/
def actionFrame (ncConnected : Bool) (action : Action) : List Byte :=
  [0xF0, 0xA0, enableByte ncConnected action, 0x53]

/-- An `std::io::Error`, abstracted to its message. -/
structure IoError where
  msg : String
deriving DecidableEq

/-- An `anyhow::Error` as the core builds them: either a context message
attached to a missing value by `with_context` (device discovery and port
opening), or a raw `io::Error` propagated by `?` from `write_all`. -/
inductive RelayError
  | contextMsg (msg : String)
  | ioFailure (e : IoError)
deriving DecidableEq

/-- One observable step on the serial stream: a 4-byte frame written by
`write_all`, or a `thread::sleep` of the given number of milliseconds. -/
inductive Event
  | wrote (frame : List Byte)
  | slept (ms : Nat)
deriving DecidableEq

/-- The `Port` struct: the boxed stream is modelled by the trace of events it
has observed (`events`), the per-write failure oracle `failAt` (consulted at
the count of frames successfully written so far), and the compile-time
polarity feature `ncConnected`.  `path` is the resolved tty path. -/
structure Port where
  path : String
  ncConnected : Bool
  failAt : Nat → Option IoError
  nwrites : Nat
  events : List Event

/-- `Port::write`: `write_all` the 4 command bytes, then sleep 50 ms.  On an
I/O error the `?` aborts before the sleep and the frame is not on the wire;
the raw `io::Error` becomes the `anyhow` error. -/
def Port.write (st : Port) (command : List Byte) : Port × Option RelayError :=
  match st.failAt st.nwrites with
  | some e => (st, some (RelayError.ioFailure e))
  | none =>
    ({ st with
        nwrites := st.nwrites + 1
        events := st.events ++ [Event.wrote command, Event.slept 50] }, none)

/-- Sequencing of two fallible steps, as Rust's `?` does it: the second step
runs only when the first returned `Ok`. -/
def andThen (r : Port × Option RelayError) (f : Port → Port × Option RelayError) :
    Port × Option RelayError :=
  match r with
  | (st, none) => f st
  | (st, some e) => (st, some e)

/-- `Port::control_mode`. -/
def Port.control_mode (st : Port) : Port × Option RelayError :=
  Port.write st controlModeFrame

/-- `Port::jog_mode`. -/
def Port.jog_mode (st : Port) : Port × Option RelayError :=
  Port.write st jogModeFrame

/-- `Port::send_timer`. -/
def Port.send_timer (st : Port) (timeout : Nat) : Port × Option RelayError :=
  Port.write st (timerFrame timeout)

/-- `Port::send_action`. -/
def Port.send_action (st : Port) (action : Action) : Port × Option RelayError :=
  Port.write st (actionFrame st.ncConnected action)

/-- `Port::send_disconnect`. -/
def Port.send_disconnect (st : Port) : Port × Option RelayError :=
  Port.send_action st Action.disconnect

/-- `Port::send_connect`. -/
def Port.send_connect (st : Port) : Port × Option RelayError :=
  Port.send_action st Action.connect

/-- `Port::on`: `control_mode()?; send_connect()`. -/
def Port.on (st : Port) : Port × Option RelayError :=
  andThen (Port.control_mode st) Port.send_connect

/-- `Port::off`: `control_mode()?; send_disconnect()`. -/
def Port.off (st : Port) : Port × Option RelayError :=
  andThen (Port.control_mode st) Port.send_disconnect

/-- `Port::timed_on`: `off()?; send_timer(timeout)`. -/
def Port.timed_on (st : Port) (timeout : Nat) : Port × Option RelayError :=
  andThen (Port.off st) (fun st2 => Port.send_timer st2 timeout)

/-- `Port::timed_off`: `on()?; send_timer(timeout)`. -/
def Port.timed_off (st : Port) (timeout : Nat) : Port × Option RelayError :=
  andThen (Port.on st) (fun st2 => Port.send_timer st2 timeout)

/-- `Port::toggle`: `control_mode()?; send_timer(0)`. -/
def Port.toggle (st : Port) : Port × Option RelayError :=
  andThen (Port.control_mode st) (fun st2 => Port.send_timer st2 0)

/-- `Port::jog`: `jog_mode()?; send_connect()`. -/
def Port.jog (st : Port) : Port × Option RelayError :=
  andThen (Port.jog_mode st) Port.send_connect

/-- The frames carried by `Event.wrote` events, in order. -/
def writtenFrames (tr : List Event) : List (List Byte) :=
  tr.filterMap fun e =>
    match e with
    | Event.wrote f => some f
    | Event.slept _ => none

/-- The bytes put on the wire by a trace, concatenated in order. -/
def bytesWritten (tr : List Event) : List Byte :=
  (writtenFrames tr).flatten

/-- A failure oracle under which every `write_all` succeeds. -/
def noFail : Nat → Option IoError := fun _ => none

/-- A freshly opened port with an empty wire trace. -/
def freshPort (ncConnected : Bool) (failAt : Nat → Option IoError) : Port :=
  { path := "stub", ncConnected := ncConnected, failAt := failAt,
    nwrites := 0, events := [] }

/-- Does every `Event.wrote` in the trace have an `Event.slept 50`
immediately after it?  This is the observable form of the 50 ms pacing
requirement: a frame never reaches the wire without the settling delay
before the next frame (or the return). -/
def pacedChk : List Event → Bool
  | Event.wrote _ :: Event.slept ms :: rest =>
    ms == 50 && pacedChk (Event.slept ms :: rest)
  | Event.wrote _ :: _ => false
  | _ :: rest => pacedChk rest
  | [] => true

/-- Does every frame written in the trace consist of exactly 4 bytes? -/
def framesLen4 (tr : List Event) : Bool :=
  (writtenFrames tr).all fun f => f.length == 4

/-! ### The frame sequence each high-level operation is specified to emit -/

/-- Frames of `on()`: control mode, then connect. -/
def onFrameSeq (nc : Bool) : List (List Byte) :=
  [controlModeFrame, actionFrame nc Action.connect]

/-- Frames of `off()`: control mode, then disconnect. -/
def offFrameSeq (nc : Bool) : List (List Byte) :=
  [controlModeFrame, actionFrame nc Action.disconnect]

/-- Frames of `toggle()`: control mode, then the zero-timeout timer frame. -/
def toggleFrameSeq : List (List Byte) :=
  [controlModeFrame, timerFrame 0]

/-- Frames of `jog()`: jog mode, then connect. -/
def jogFrameSeq (nc : Bool) : List (List Byte) :=
  [jogModeFrame, actionFrame nc Action.connect]

/-- Frames of `timed_on(t)`: the full `off()` sequence, then the timer. -/
def timedOnFrameSeq (nc : Bool) (t : Nat) : List (List Byte) :=
  offFrameSeq nc ++ [timerFrame t]

/-- Frames of `timed_off(t)`: the full `on()` sequence, then the timer. -/
def timedOffFrameSeq (nc : Bool) (t : Nat) : List (List Byte) :=
  onFrameSeq nc ++ [timerFrame t]

/-- Run a list of frame writes in order, aborting at the first failure, as
the `?`-chained bodies of the high-level operations do. -/
def runFrames (st : Port) : List (List Byte) → Port × Option RelayError
  | [] => (st, none)
  | f :: rest => andThen (Port.write st f) fun st2 => runFrames st2 rest

/-- The outcome `r` of an operation whose full frame sequence is `seq`:
what actually reached the wire is `seq.take k` for some `k`, all of `seq`
exactly when the operation returned `Ok`, and a strictly shorter prefix
together with a propagated I/O error otherwise. -/
def runMatchesSeq (r : Port × Option RelayError) (seq : List (List Byte)) :
    Prop :=
  ∃ k, k ≤ seq.length ∧
    writtenFrames r.1.events = seq.take k ∧
    ((r.2 = none ∧ k = seq.length) ∨
      (∃ e, r.2 = some (RelayError.ioFailure e) ∧ k < seq.length))

/-! ### Device discovery and opening (`Port::find_tty`, `Port::open`) -/

/-- The `UsbPortInfo` fields `find_tty` inspects. -/
structure UsbPortInfo where
  vid : Nat
  pid : Nat
deriving DecidableEq

/-- `serialport::SerialPortType`: only `UsbPort` carries USB metadata. -/
inductive SerialPortType
  | usbPort (info : UsbPortInfo)
  | pciPort
  | bluetoothPort
  | unknown
deriving DecidableEq

/-- `serialport::SerialPortInfo`. -/
structure SerialPortInfo where
  port_name : String
  port_type : SerialPortType
deriving DecidableEq

/-- The loop body of `find_tty`: scan the enumerated ports in order, return
the name of the first USB port whose vid and pid both match; ports whose
`port_type` is not `UsbPort` are skipped. -/
def findTtyLoop (vid pid : Nat) : List SerialPortInfo → Option String
  | [] => none
  | port :: rest =>
    match port.port_type with
    | SerialPortType.usbPort usb =>
      if usb.vid == vid && usb.pid == pid then some port.port_name
      else findTtyLoop vid pid rest
    | _ => findTtyLoop vid pid rest

/-- The matching test of the `find_tty` loop, as a predicate on one
enumerated port: a USB port whose vid and pid both equal the wanted pair;
any port without USB metadata never matches. -/
def usbMatches (vid pid : Nat) (port : SerialPortInfo) : Bool :=
  match port.port_type with
  | SerialPortType.usbPort usb => usb.vid == vid && usb.pid == pid
  | _ => false

/-- `Port::find_tty`: `serialport::available_ports().ok()?` turns an
enumeration error into `None`; otherwise scan the list. -/
def find_tty (avail : Except IoError (List SerialPortInfo)) (vid pid : Nat) :
    Option String :=
  match avail with
  | Except.error _ => none
  | Except.ok ports => findTtyLoop vid pid ports

/-- `Port::VID`. -/
def VID : Nat := 0x1a86

/-- `Port::PID`. -/
def PID : Nat := 0x7523

/-- One lower-case hex digit, as `{:04x}` formatting renders it. -/
def hexDigit (n : Nat) : Char :=
  if n < 10 then Char.ofNat (48 + n) else Char.ofNat (87 + n)

/-- `{:04x}` on a `u16` value: four lower-case hex digits, zero-padded. -/
def hex4 (n : Nat) : String :=
  String.mk [hexDigit (n / 4096 % 16), hexDigit (n / 256 % 16),
             hexDigit (n / 16 % 16), hexDigit (n % 16)]

/-- The `with_context` message attached when `find_tty` returns `None`. -/
def notFoundMsg (vid pid : Nat) : String :=
  "Compatible TTY devices is not found (with vid:pid " ++ hex4 vid ++ ":"
    ++ hex4 pid ++ ")"

/-- The `with_context` message attached when `serialport::...open()` fails
(the open error itself is discarded by `.ok()`). -/
def openFailedMsg (path : String) : String :=
  "failed to open tty " ++ path

/-- The environment `Port::open` runs in: the outcome of
`serialport::available_ports()` and, for each path, whether
`serialport::new(path, 9600).timeout(10ms).open()` succeeds. -/
structure OpenEnv where
  avail : Except IoError (List SerialPortInfo)
  canOpen : String → Bool

/-- `Port::open`: an explicit `tty_path` is used as-is; otherwise the path
comes from `find_tty(VID, PID)`, with the not-found context message when that
yields `None`.  Opening the stream at the resolved path then either produces
the port or the open-failed context message. -/
def Port.openPort (env : OpenEnv) (ncConnected : Bool)
    (failAt : Nat → Option IoError) (tty_path : Option String) :
    Except RelayError Port :=
  let resolved : Except RelayError String :=
    match tty_path with
    | some p => Except.ok p
    | none =>
      match find_tty env.avail VID PID with
      | some path => Except.ok path
      | none => Except.error (RelayError.contextMsg (notFoundMsg VID PID))
  match resolved with
  | Except.error e => Except.error e
  | Except.ok path =>
    if env.canOpen path then
      Except.ok { path := path, ncConnected := ncConnected, failAt := failAt,
                  nwrites := 0, events := [] }
    else
      Except.error (RelayError.contextMsg (openFailedMsg path))

/-! ### Distinguishing the error kinds (claim C8) -/

/-- The three failure kinds of the core named by the spec. -/
inductive ErrorKind
  | deviceNotFound
  | openFailed
  | writeFailed
deriving DecidableEq

/-- `pre` is an initial segment of `s` (on char lists). -/
def charsHavePre : List Char → List Char → Bool
  | [], _ => true
  | _ :: _, [] => false
  | c :: cs, d :: ds => c == d && charsHavePre cs ds

/-- A discriminator a caller can apply to the returned error value alone:
raw I/O errors are write failures; context messages are told apart by the
two distinct fixed message heads used in `Port::open`. -/
def classifyError (e : RelayError) : Option ErrorKind :=
  match e with
  | RelayError.ioFailure _ => some ErrorKind.writeFailed
  | RelayError.contextMsg m =>
    if charsHavePre "Compatible TTY devices is not found".data m.data then
      some ErrorKind.deviceNotFound
    else if charsHavePre "failed to open tty".data m.data then
      some ErrorKind.openFailed
    else none

/-! ### CLI argument handling (`src/main.rs`) -/

/-- Value of a nonempty all-digit string, as Rust's integer `from_str`
accumulates it. -/
def digitsVal (cs : List Char) : Nat :=
  cs.foldl (fun acc c => acc * 10 + (c.toNat - 48)) 0

/-- Digit-run parsing shared by Rust's integer `from_str`: every char must
be an ASCII digit and there must be at least one. -/
def parseDigits (cs : List Char) : Option Nat :=
  if cs.isEmpty then none
  else if cs.all Char.isDigit then some (digitsVal cs) else none

/-- `str::parse::<i32>()`: an optional leading sign, then a digit run whose
accumulated value must lie within the `i32` bounds. -/
def rustParseI32 (s : String) : Option Int :=
  if s.data.headD ' ' = '-' then
    (parseDigits s.data.tail).bind fun v =>
      if v ≤ 2 ^ 31 then some (-(v : Int)) else none
  else if s.data.headD ' ' = '+' then
    (parseDigits s.data.tail).bind fun v =>
      if v < 2 ^ 31 then some ((v : Int)) else none
  else
    (parseDigits s.data).bind fun v =>
      if v < 2 ^ 31 then some ((v : Int)) else none

/-- `str::parse::<u16>()`: an optional leading `+` (a `-` is an invalid
digit for an unsigned type), then a digit run whose accumulated value must
not exceed `u16::MAX`. -/
def rustParseU16 (s : String) : Option Nat :=
  if s.data.headD ' ' = '+' then
    (parseDigits s.data.tail).bind fun v => if v < 2 ^ 16 then some v else none
  else
    (parseDigits s.data).bind fun v => if v < 2 ^ 16 then some v else none

/-- `is_number`: the clap validator on `seconds`, accepting exactly the
strings that parse as an `i32`. -/
def is_number (val : String) : Bool :=
  (rustParseI32 val).isSome

/-- The `Command` enum of `main.rs`. -/
inductive Command
  | on
  | off
  | toggle
  | jog
  | timedOn (seconds : Nat)
  | timedOff (seconds : Nat)
  | unknown
deriving DecidableEq

/-- The parts of clap's `ArgMatches` that `parse_command` inspects: which
subcommand is present, and the raw `seconds` string of a timed subcommand. -/
structure ArgMatches where
  has_on : Bool
  has_off : Bool
  has_toggle : Bool
  has_jog : Bool
  timed_start : Option String
  timed_stop : Option String

/-- `parse_command`: the timed branches run
`sub_matches.value_of("seconds").unwrap().parse().unwrap()` where the parse
target is the `u16` timeout; `none` models the panic of that second
`unwrap` on a string `u16` cannot parse. -/
def parse_command (m : ArgMatches) : Option Command :=
  if m.has_on then some Command.on
  else if m.has_off then some Command.off
  else if m.has_toggle then some Command.toggle
  else if m.has_jog then some Command.jog
  else
    match m.timed_start with
    | some s => (rustParseU16 s).map Command.timedOn
    | none =>
      match m.timed_stop with
      | some s => (rustParseU16 s).map Command.timedOff
      | none => some Command.unknown

/-! ### Helper lemmas -/

theorem andThen_pure (r : Port × Option RelayError) :
    andThen r (fun st => (st, none)) = r := by
  obtain ⟨st, e⟩ := r
  cases e <;> rfl

theorem runFrames_single (st : Port) (f : List Byte) :
    runFrames st [f] = Port.write st f := by
  show andThen (Port.write st f) _ = _
  exact andThen_pure (Port.write st f)

theorem runFrames_append (xs ys : List (List Byte)) (st : Port) :
    runFrames st (xs ++ ys)
      = andThen (runFrames st xs) fun st2 => runFrames st2 ys := by
  induction xs generalizing st with
  | nil => simp [runFrames, andThen]
  | cons f rest ih =>
    simp only [List.cons_append, runFrames]
    cases hf : st.failAt st.nwrites with
    | some e => simp [Port.write, andThen, hf]
    | none => simp [Port.write, andThen, hf, ih]

theorem on_eq_runFrames (st : Port) :
    Port.on st = runFrames st (onFrameSeq st.ncConnected) := by
  unfold Port.on onFrameSeq Port.control_mode Port.send_connect Port.send_action
  cases hf : st.failAt st.nwrites with
  | some e => simp [runFrames, Port.write, andThen, hf]
  | none =>
    cases hf2 : st.failAt (st.nwrites + 1) <;>
      simp [runFrames, Port.write, andThen, hf, hf2]

theorem off_eq_runFrames (st : Port) :
    Port.off st = runFrames st (offFrameSeq st.ncConnected) := by
  unfold Port.off offFrameSeq Port.control_mode Port.send_disconnect
    Port.send_action
  cases hf : st.failAt st.nwrites with
  | some e => simp [runFrames, Port.write, andThen, hf]
  | none =>
    cases hf2 : st.failAt (st.nwrites + 1) <;>
      simp [runFrames, Port.write, andThen, hf, hf2]

theorem toggle_eq_runFrames (st : Port) :
    Port.toggle st = runFrames st toggleFrameSeq := by
  unfold Port.toggle toggleFrameSeq Port.control_mode Port.send_timer
  cases hf : st.failAt st.nwrites with
  | some e => simp [runFrames, Port.write, andThen, hf]
  | none =>
    cases hf2 : st.failAt (st.nwrites + 1) <;>
      simp [runFrames, Port.write, andThen, hf, hf2]

theorem jog_eq_runFrames (st : Port) :
    Port.jog st = runFrames st (jogFrameSeq st.ncConnected) := by
  unfold Port.jog jogFrameSeq Port.jog_mode Port.send_connect Port.send_action
  cases hf : st.failAt st.nwrites with
  | some e => simp [runFrames, Port.write, andThen, hf]
  | none =>
    cases hf2 : st.failAt (st.nwrites + 1) <;>
      simp [runFrames, Port.write, andThen, hf, hf2]

theorem timed_on_eq_runFrames (st : Port) (t : Nat) :
    Port.timed_on st t = runFrames st (timedOnFrameSeq st.ncConnected t) := by
  unfold Port.timed_on timedOnFrameSeq
  rw [runFrames_append, ← off_eq_runFrames]
  simp [runFrames_single, Port.send_timer]

theorem timed_off_eq_runFrames (st : Port) (t : Nat) :
    Port.timed_off st t = runFrames st (timedOffFrameSeq st.ncConnected t) := by
  unfold Port.timed_off timedOffFrameSeq
  rw [runFrames_append, ← on_eq_runFrames]
  simp [runFrames_single, Port.send_timer]

theorem writtenFrames_append (l1 l2 : List Event) :
    writtenFrames (l1 ++ l2) = writtenFrames l1 ++ writtenFrames l2 := by
  simp [writtenFrames]

theorem runFrames_written (frames : List (List Byte)) (st : Port) :
    ∃ k, k ≤ frames.length ∧
      writtenFrames (runFrames st frames).1.events
        = writtenFrames st.events ++ frames.take k ∧
      (((runFrames st frames).2 = none ∧ k = frames.length) ∨
        (∃ e, (runFrames st frames).2 = some (RelayError.ioFailure e) ∧
          k < frames.length)) := by
  induction frames generalizing st with
  | nil => exact ⟨0, by simp [runFrames]⟩
  | cons f rest ih =>
    cases hf : st.failAt st.nwrites with
    | some e =>
      refine ⟨0, by simp, ?_, ?_⟩
      · simp [runFrames, Port.write, andThen, hf]
      · right
        exact ⟨e, by simp [runFrames, Port.write, andThen, hf], by simp⟩
    | none =>
      have h1 : (Port.write st f).1.events
          = st.events ++ [Event.wrote f, Event.slept 50] := by
        simp [Port.write, hf]
      have hrun : runFrames st (f :: rest)
          = runFrames (Port.write st f).1 rest := by
        simp only [runFrames, andThen, Port.write, hf]
      obtain ⟨k, hk, hw, hres⟩ := ih (Port.write st f).1
      refine ⟨k + 1, Nat.succ_le_succ hk, ?_, ?_⟩
      · rw [hrun, hw, h1, writtenFrames_append]
        simp [writtenFrames]
      · rw [hrun]
        rcases hres with ⟨ha, hkeq⟩ | ⟨e, ha, hlt⟩
        · exact Or.inl ⟨ha, by simp [hkeq]⟩
        · exact Or.inr ⟨e, ha, Nat.succ_lt_succ hlt⟩

theorem findTtyLoop_eq_find (vid pid : Nat) (ports : List SerialPortInfo) :
    findTtyLoop vid pid ports
      = (ports.find? (usbMatches vid pid)).map SerialPortInfo.port_name := by
  induction ports with
  | nil => rfl
  | cons port rest ih =>
    rw [findTtyLoop]
    have hcons : (port :: rest).find? (usbMatches vid pid)
        = if usbMatches vid pid port then some port
          else rest.find? (usbMatches vid pid) := by
      cases hb : usbMatches vid pid port with
      | true => simp [List.find?_cons_of_pos, hb]
      | false => simp [List.find?_cons_of_neg, hb]
    cases hpt : port.port_type with
    | usbPort usb =>
      have hu : usbMatches vid pid port = (usb.vid == vid && usb.pid == pid) := by
        simp [usbMatches, hpt]
      cases hb : (usb.vid == vid && usb.pid == pid) with
      | true => simp [hcons, hu, hb]
      | false => simp [hcons, hu, hb, ih]
    | pciPort =>
      have hu : usbMatches vid pid port = false := by simp [usbMatches, hpt]
      simp [hcons, hu, ih]
    | bluetoothPort =>
      have hu : usbMatches vid pid port = false := by simp [usbMatches, hpt]
      simp [hcons, hu, ih]
    | unknown =>
      have hu : usbMatches vid pid port = false := by simp [usbMatches, hpt]
      simp [hcons, hu, ih]

theorem findTtyLoop_eq_none_iff (vid pid : Nat) (ports : List SerialPortInfo) :
    findTtyLoop vid pid ports = none
      ↔ ∀ port ∈ ports, usbMatches vid pid port = false := by
  rw [findTtyLoop_eq_find]
  simp [List.find?_eq_none]

theorem classify_notFound (vid pid : Nat) :
    classifyError (RelayError.contextMsg (notFoundMsg vid pid))
      = some ErrorKind.deviceNotFound := rfl

theorem classify_openFailed (p : String) :
    classifyError (RelayError.contextMsg (openFailedMsg p))
      = some ErrorKind.openFailed := rfl

theorem openFailedMsg_ne_notFoundMsg (p : String) (vid pid : Nat) :
    openFailedMsg p ≠ notFoundMsg vid pid := by
  intro h
  have h2 : classifyError (RelayError.contextMsg (openFailedMsg p))
      = classifyError (RelayError.contextMsg (notFoundMsg vid pid)) := by
    rw [h]
  rw [classify_openFailed, classify_notFound] at h2
  simp at h2

theorem parseDigits_head_not_digit (c : Char) (cs : List Char)
    (h : c.isDigit = false) : parseDigits (c :: cs) = none := by
  simp [parseDigits, h]

/-! ### The claims -/

/-- C1: for every `seconds` in `[0, 65535]`, `send_timer(seconds)` writes
exactly one 4-byte frame `[0xF0, high, low, 0x57]` with
`high = seconds / 256` and `low = seconds % 256`, i.e. the two bytes of the
native (little-endian target) 16-bit decomposition `seconds.to_ne_bytes()`
with `to_ne_bytes()[1]` in position 1 and `to_ne_bytes()[0]` in position 2;
in particular `send_timer(0)` writes `F0 00 00 57` and `send_timer(65535)`
writes `F0 FF FF 57`. -/
theorem C1_send_timer_frame (s : Nat) (hs : s < 65536) :
    (Port.send_timer (freshPort false noFail) s).2 = none ∧
    (Port.send_timer (freshPort false noFail) s).1.events
      = [Event.wrote (timerFrame s), Event.slept 50] ∧
    timerFrame s = [0xF0, s / 256, s % 256, 0x57] ∧
    (timerFrame s).length = 4 ∧
    bytesWritten (Port.send_timer (freshPort false noFail) 0).1.events
      = [0xF0, 0x00, 0x00, 0x57] ∧
    bytesWritten (Port.send_timer (freshPort false noFail) 65535).1.events
      = [0xF0, 0xFF, 0xFF, 0x57] := by
  have hdiv : s / 256 % 256 = s / 256 :=
    Nat.mod_eq_of_lt (Nat.div_lt_of_lt_mul (by omega))
  have hframe : timerFrame s = [0xF0, s / 256, s % 256, 0x57] := by
    rw [show timerFrame s = [0xF0, s / 256 % 256, s % 256, 0x57] from rfl, hdiv]
  exact ⟨rfl, rfl, hframe, rfl, rfl, rfl⟩

/-- Witness for C1 at the asymmetric input 300 = 0x012C: high byte 1, low
byte 44. -/
theorem C1_send_timer_frame_witness :
    (300 : Nat) < 65536 ∧ timerFrame 300 = [0xF0, 300 / 256, 300 % 256, 0x57] :=
  ⟨by decide, (C1_send_timer_frame 300 (by decide)).2.2.1⟩

/-- C2: with every write succeeding, `timed_on(s)` puts on the wire exactly
the frames of `off()` followed by the `send_timer(s)` frame, and
`timed_off(s)` exactly the frames of `on()` followed by the `send_timer(s)`
frame; for `s = 1`, `timed_on(1)` writes byte-for-byte
`F0 A0 0C 54  F0 A0 00 53  F0 00 01 57`. -/
theorem C2_timed_sequences (s : Nat) :
    writtenFrames (Port.timed_on (freshPort false noFail) s).1.events
      = writtenFrames (Port.off (freshPort false noFail)).1.events
        ++ [timerFrame s] ∧
    writtenFrames (Port.timed_off (freshPort false noFail) s).1.events
      = writtenFrames (Port.on (freshPort false noFail)).1.events
        ++ [timerFrame s] ∧
    (Port.timed_on (freshPort false noFail) s).2 = none ∧
    (Port.timed_off (freshPort false noFail) s).2 = none ∧
    bytesWritten (Port.timed_on (freshPort false noFail) 1).1.events
      = [0xF0, 0xA0, 0x0C, 0x54, 0xF0, 0xA0, 0x00, 0x53,
         0xF0, 0x00, 0x01, 0x57] :=
  ⟨rfl, rfl, rfl, rfl, rfl⟩

/-- C3: whatever the prior state of the port, with every write succeeding
and under the enable-on-connect polarity, `on()` appends exactly the
control-mode frame `F0 A0 0C 54` then the connect frame `F0 A0 01 53`, and
`off()` appends the control-mode frame then the disconnect frame
`F0 A0 00 53`; the enable byte is 0x01 for `Connect` and 0x00 for
`Disconnect`. -/
theorem C3_on_off_frames (st : Port) (hfail : ∀ n, st.failAt n = none)
    (hpol : st.ncConnected = false) :
    (Port.on st).2 = none ∧
    (Port.on st).1.events = st.events
      ++ [Event.wrote [0xF0, 0xA0, 0x0C, 0x54], Event.slept 50,
          Event.wrote [0xF0, 0xA0, 0x01, 0x53], Event.slept 50] ∧
    (Port.off st).2 = none ∧
    (Port.off st).1.events = st.events
      ++ [Event.wrote [0xF0, 0xA0, 0x0C, 0x54], Event.slept 50,
          Event.wrote [0xF0, 0xA0, 0x00, 0x53], Event.slept 50] ∧
    enableByte false Action.connect = 0x01 ∧
    enableByte false Action.disconnect = 0x00 := by
  refine ⟨?_, ?_, ?_, ?_, rfl, rfl⟩ <;>
    simp [Port.on, Port.off, Port.control_mode, Port.send_connect,
      Port.send_disconnect, Port.send_action, Port.write, andThen,
      hfail, hpol, actionFrame, enableByte, controlModeFrame]

/-- Witness for C3 on a fresh all-success port. -/
theorem C3_on_off_frames_witness :
    (Port.on (freshPort false noFail)).1.events
      = [Event.wrote [0xF0, 0xA0, 0x0C, 0x54], Event.slept 50,
         Event.wrote [0xF0, 0xA0, 0x01, 0x53], Event.slept 50] :=
  (C3_on_off_frames (freshPort false noFail) (fun _ => rfl) rfl).2.1

/-- C4: whatever the prior state, with every write succeeding and under the
enable-on-connect polarity, `toggle()` appends exactly the control-mode
frame then the zero-timeout timer frame `F0 00 00 57`, and `jog()` appends
exactly the jog-mode frame `F0 A0 0C 55` — which differs from the
control-mode frame — then the connect frame. -/
theorem C4_toggle_jog_frames (st : Port) (hfail : ∀ n, st.failAt n = none)
    (hpol : st.ncConnected = false) :
    (Port.toggle st).2 = none ∧
    (Port.toggle st).1.events = st.events
      ++ [Event.wrote [0xF0, 0xA0, 0x0C, 0x54], Event.slept 50,
          Event.wrote [0xF0, 0x00, 0x00, 0x57], Event.slept 50] ∧
    timerFrame 0 = [0xF0, 0x00, 0x00, 0x57] ∧
    (Port.jog st).2 = none ∧
    (Port.jog st).1.events = st.events
      ++ [Event.wrote [0xF0, 0xA0, 0x0C, 0x55], Event.slept 50,
          Event.wrote [0xF0, 0xA0, 0x01, 0x53], Event.slept 50] ∧
    jogModeFrame ≠ controlModeFrame := by
  refine ⟨?_, ?_, rfl, ?_, ?_, by decide⟩ <;>
    simp [Port.toggle, Port.jog, Port.control_mode, Port.jog_mode,
      Port.send_timer, Port.send_connect, Port.send_action, Port.write,
      andThen, hfail, hpol, actionFrame, enableByte, controlModeFrame,
      jogModeFrame, timerFrame, toNeBytes]

/-- Witness for C4 on a fresh all-success port. -/
theorem C4_toggle_jog_frames_witness :
    (Port.jog (freshPort false noFail)).1.events
      = [Event.wrote [0xF0, 0xA0, 0x0C, 0x55], Event.slept 50,
         Event.wrote [0xF0, 0xA0, 0x01, 0x53], Event.slept 50] :=
  (C4_toggle_jog_frames (freshPort false noFail) (fun _ => rfl) rfl).2.2.2.2.1

/-- C5: every successful call of the frame-writing primitive appends its
frame and then the 50 ms sleep before returning, so in each multi-frame
operation every frame on the wire is immediately followed by the 50 ms
pacing delay before the next frame; all frames written by the operations
are 4 bytes long. -/
theorem C5_write_pacing (st st2 : Port) (cmd : List Byte) (nc : Bool) (s : Nat)
    (h : Port.write st cmd = (st2, none)) :
    st2.events = st.events ++ [Event.wrote cmd, Event.slept 50] ∧
    pacedChk (Port.on (freshPort nc noFail)).1.events = true ∧
    pacedChk (Port.off (freshPort nc noFail)).1.events = true ∧
    pacedChk (Port.toggle (freshPort nc noFail)).1.events = true ∧
    pacedChk (Port.jog (freshPort nc noFail)).1.events = true ∧
    pacedChk (Port.timed_on (freshPort nc noFail) s).1.events = true ∧
    pacedChk (Port.timed_off (freshPort nc noFail) s).1.events = true ∧
    framesLen4 (Port.on (freshPort nc noFail)).1.events = true ∧
    framesLen4 (Port.off (freshPort nc noFail)).1.events = true ∧
    framesLen4 (Port.toggle (freshPort nc noFail)).1.events = true ∧
    framesLen4 (Port.jog (freshPort nc noFail)).1.events = true ∧
    framesLen4 (Port.timed_on (freshPort nc noFail) s).1.events = true ∧
    framesLen4 (Port.timed_off (freshPort nc noFail) s).1.events = true := by
  refine ⟨?_, rfl, rfl, rfl, rfl, rfl, rfl, rfl, rfl, rfl, rfl, rfl, rfl⟩
  unfold Port.write at h
  cases hf : st.failAt st.nwrites with
  | some e =>
    rw [hf] at h
    exact Option.noConfusion (congrArg Prod.snd h)
  | none =>
    rw [hf] at h
    injection h with h1 h2
    subst h1
    rfl

/-- Witness for C5: a concrete successful write. -/
theorem C5_write_pacing_witness :
    (Port.write (freshPort false noFail) controlModeFrame).1.events
      = (freshPort false noFail).events
        ++ [Event.wrote controlModeFrame, Event.slept 50] :=
  (C5_write_pacing (freshPort false noFail)
    (Port.write (freshPort false noFail) controlModeFrame).1
    controlModeFrame false 1 rfl).1

/-- C6: an explicit path is used as-is — the result does not depend on the
enumeration at all, and the port opens at exactly that path; without an
explicit path the locator scans the enumerated devices and picks the first
whose USB vid/pid equal (0x1a86, 0x7523), skipping devices without USB
metadata (`find?` semantics); and the not-found error is returned exactly
when no explicit path was given and no enumerated device matches. -/
theorem C6_device_resolution
    (avail avail2 : Except IoError (List SerialPortInfo))
    (co : String → Bool) (nc : Bool) (fa : Nat → Option IoError)
    (p : String) (ports : List SerialPortInfo)
    (hopen : co p = true) :
    Port.openPort ⟨avail, co⟩ nc fa (some p)
      = Port.openPort ⟨avail2, co⟩ nc fa (some p) ∧
    (∃ st, Port.openPort ⟨avail, co⟩ nc fa (some p) = Except.ok st ∧
      st.path = p) ∧
    findTtyLoop VID PID ports
      = (ports.find? (usbMatches VID PID)).map SerialPortInfo.port_name ∧
    (Port.openPort ⟨Except.ok ports, co⟩ nc fa none
        = Except.error (RelayError.contextMsg (notFoundMsg VID PID))
      ↔ findTtyLoop VID PID ports = none) ∧
    (findTtyLoop VID PID ports = none
      ↔ ∀ port ∈ ports, usbMatches VID PID port = false) := by
  refine ⟨rfl, ?_, findTtyLoop_eq_find VID PID ports, ?_,
    findTtyLoop_eq_none_iff VID PID ports⟩
  · simp [Port.openPort, hopen]
  · cases hft : findTtyLoop VID PID ports with
    | none => simp [Port.openPort, find_tty, hft]
    | some path =>
      cases hco : co path with
      | true => simp [Port.openPort, find_tty, hft, hco]
      | false =>
        simp [Port.openPort, find_tty, hft, hco,
          openFailedMsg_ne_notFoundMsg path VID PID]

/-- Witness for C6 with an explicit path that can be opened. -/
theorem C6_device_resolution_witness :
    ∃ st, Port.openPort ⟨Except.ok [], fun _ => true⟩ false noFail
        (some "/dev/ttyUSB0") = Except.ok st ∧ st.path = "/dev/ttyUSB0" :=
  (C6_device_resolution (Except.ok []) (Except.error ⟨"enumeration failed"⟩)
    (fun _ => true) false noFail "/dev/ttyUSB0" [] rfl).2.1

/-- C7: for every failure oracle, each multi-frame operation puts on the
wire a prefix of its full frame sequence: the whole sequence exactly when
it returns `Ok`, and a strictly shorter prefix together with the propagated
I/O error when some write fails — no compensating frame, no retry. -/
theorem C7_write_error_aborts (nc : Bool) (fa : Nat → Option IoError)
    (s : Nat) :
    runMatchesSeq (Port.on (freshPort nc fa)) (onFrameSeq nc) ∧
    runMatchesSeq (Port.off (freshPort nc fa)) (offFrameSeq nc) ∧
    runMatchesSeq (Port.toggle (freshPort nc fa)) toggleFrameSeq ∧
    runMatchesSeq (Port.jog (freshPort nc fa)) (jogFrameSeq nc) ∧
    runMatchesSeq (Port.timed_on (freshPort nc fa) s) (timedOnFrameSeq nc s) ∧
    runMatchesSeq (Port.timed_off (freshPort nc fa) s)
      (timedOffFrameSeq nc s) := by
  have base : ∀ seq : List (List Byte),
      runMatchesSeq (runFrames (freshPort nc fa) seq) seq := by
    intro seq
    obtain ⟨k, hk, hw, hres⟩ := runFrames_written seq (freshPort nc fa)
    exact ⟨k, hk, by simpa [freshPort, writtenFrames] using hw, hres⟩
  refine ⟨?_, ?_, ?_, ?_, ?_, ?_⟩
  · rw [on_eq_runFrames]; exact base _
  · rw [off_eq_runFrames]; exact base _
  · rw [toggle_eq_runFrames]; exact base _
  · rw [jog_eq_runFrames]; exact base _
  · rw [timed_on_eq_runFrames]; exact base _
  · rw [timed_off_eq_runFrames]; exact base _

/-- C8: each failing path of the core yields an error value a caller can
classify — from the value alone — as device-not-found (no explicit path,
no USB match), open-failed (stream could not be opened) or write-failed
(I/O error mid-operation); the three kinds are pairwise distinct. -/
theorem C8_error_kinds :
    (∀ (co : String → Bool) (nc : Bool) (fa : Nat → Option IoError)
        (ports : List SerialPortInfo), findTtyLoop VID PID ports = none →
      ∃ e, Port.openPort ⟨Except.ok ports, co⟩ nc fa none = Except.error e ∧
        classifyError e = some ErrorKind.deviceNotFound) ∧
    (∀ (env : OpenEnv) (nc : Bool) (fa : Nat → Option IoError) (p : String),
        env.canOpen p = false →
      ∃ e, Port.openPort env nc fa (some p) = Except.error e ∧
        classifyError e = some ErrorKind.openFailed) ∧
    (∀ (st : Port) (cmd : List Byte) (e : RelayError),
        (Port.write st cmd).2 = some e →
      classifyError e = some ErrorKind.writeFailed) ∧
    (ErrorKind.deviceNotFound ≠ ErrorKind.openFailed ∧
      ErrorKind.deviceNotFound ≠ ErrorKind.writeFailed ∧
      ErrorKind.openFailed ≠ ErrorKind.writeFailed) := by
  refine ⟨?_, ?_, ?_, by decide, by decide, by decide⟩
  · intro co nc fa ports hft
    refine ⟨RelayError.contextMsg (notFoundMsg VID PID), ?_,
      classify_notFound VID PID⟩
    simp [Port.openPort, find_tty, hft]
  · intro env nc fa p hco
    refine ⟨RelayError.contextMsg (openFailedMsg p), ?_,
      classify_openFailed p⟩
    simp [Port.openPort, hco]
  · intro st cmd e h
    unfold Port.write at h
    cases hf : st.failAt st.nwrites with
    | some e0 =>
      rw [hf] at h
      have he : e = RelayError.ioFailure e0 := by
        injection h with h1
        exact h1.symm
      rw [he]
      rfl
    | none =>
      rw [hf] at h
      exact Option.noConfusion h

/-- Witness for C8: the device-not-found branch on an empty enumeration. -/
theorem C8_error_kinds_witness :
    ∃ e, Port.openPort ⟨Except.ok [], fun _ => true⟩ false noFail none
        = Except.error e ∧
      classifyError e = some ErrorKind.deviceNotFound :=
  C8_error_kinds.1 (fun _ => true) false noFail [] rfl

/-- C9: every `seconds` string that parses as an `i32` but lies outside the
`u16` range is accepted by the CLI validator `is_number`, yet the
`parse().unwrap()` in `parse_command` panics on it (modelled as `none`)
instead of rejecting it before the core runs. -/
theorem C9_cli_validator_gap (s : String) (n : Int)
    (h1 : rustParseI32 s = some n) (h2 : n < 0 ∨ 65535 < n) :
    is_number s = true ∧
    rustParseU16 s = none ∧
    parse_command ⟨false, false, false, false, some s, none⟩ = none := by
  have hu : rustParseU16 s = none := by
    unfold rustParseI32 at h1
    unfold rustParseU16
    by_cases hm : s.data.headD ' ' = '-'
    · rw [if_pos hm] at h1
      have hplus : ¬ s.data.headD ' ' = '+' := by
        rw [hm]
        decide
      rw [if_neg hplus]
      cases hd : s.data with
      | nil =>
        rw [hd] at hm
        simp at hm
      | cons c t =>
        rw [hd] at hm
        simp at hm
        rw [hm, parseDigits_head_not_digit '-' t (by decide)]
        rfl
    · rw [if_neg hm] at h1
      by_cases hp : s.data.headD ' ' = '+'
      · rw [if_pos hp] at h1
        rw [if_pos hp]
        cases hpd : parseDigits s.data.tail with
        | none =>
          rw [hpd] at h1
          exact Option.noConfusion h1
        | some v =>
          rw [hpd] at h1
          simp only [Option.some_bind] at h1
          by_cases hr : v < 2 ^ 31
          · rw [if_pos hr] at h1
            injection h1 with h1
            have hv : 65535 < v := by
              rcases h2 with h2 | h2 <;> omega
            simp only [Option.some_bind]
            rw [if_neg (by omega)]
          · rw [if_neg hr] at h1
            exact Option.noConfusion h1
      · rw [if_neg hp] at h1
        rw [if_neg hp]
        cases hpd : parseDigits s.data with
        | none =>
          rw [hpd] at h1
          exact Option.noConfusion h1
        | some v =>
          rw [hpd] at h1
          simp only [Option.some_bind] at h1
          by_cases hr : v < 2 ^ 31
          · rw [if_pos hr] at h1
            injection h1 with h1
            have hv : 65535 < v := by
              rcases h2 with h2 | h2 <;> omega
            simp only [Option.some_bind]
            rw [if_neg (by omega)]
          · rw [if_neg hr] at h1
            exact Option.noConfusion h1
  refine ⟨by simp [is_number, h1], hu, by simp [parse_command, hu]⟩

/-- Witness for C9 at both out-of-range shapes: a negative value and a
too-large positive value. -/
theorem C9_cli_validator_gap_witness :
    (is_number "-1" = true ∧ rustParseU16 "-1" = none ∧
      parse_command ⟨false, false, false, false, some "-1", none⟩ = none) ∧
    (is_number "70000" = true ∧ rustParseU16 "70000" = none ∧
      parse_command ⟨false, false, false, false, some "70000", none⟩
        = none) :=
  ⟨C9_cli_validator_gap "-1" (-1) (by decide) (Or.inl (by decide)),
    C9_cli_validator_gap "70000" 70000 (by decide) (Or.inr (by decide))⟩

/-- C10: when enumeration of the serial ports itself fails, `find_tty`
returns `None`, and `open` without an explicit path reports exactly the
same device-not-found error as when the enumeration succeeds with no
matching device — the two situations are indistinguishable at the public
interface. -/
theorem C10_enumeration_error_opaque (e : IoError) (vid pid : Nat)
    (co : String → Bool) (nc : Bool) (fa : Nat → Option IoError) :
    find_tty (Except.error e) vid pid = none ∧
    Port.openPort ⟨Except.error e, co⟩ nc fa none
      = Except.error (RelayError.contextMsg (notFoundMsg VID PID)) ∧
    Port.openPort ⟨Except.error e, co⟩ nc fa none
      = Port.openPort ⟨Except.ok [], co⟩ nc fa none :=
  ⟨rfl, rfl, rfl⟩

end TtyRelay
